import Mathlib

/-!
Verification of the NeMo performance-script fragment:
`scripts/performance/llm/pretrain_mixtral_8x22b.py` and
`nemo/collections/vlm/neva/data/api.py`.

The recipes, plugins and tokenizers are nested configuration objects that the
script mutates field by field.  We embed exactly the object paths the script
reads or writes; each record carries an extra `rest` component standing for
the remaining state of the underlying framework object, so that frame
properties ("this path is untouched") are expressible.  The external
collaborators (`pretrain_recipe`, `set_primary_perf_configs`, `hf_tokenizer`,
`bf16_with_fp8_mixed`) are not part of this fragment; the embedding takes
them as function parameters and the theorems quantify over them.
-/

/-- A tokenizer object as produced by the pretrained-tokenizer lookup. -/
structure Tokenizer where
  name : String
deriving DecidableEq, Repr

/-- The trainer precision-plugin object; the script writes
`grad_reduce_in_fp32` and may replace the whole object. -/
structure Plugins where
  grad_reduce_in_fp32 : Bool
  rest : Nat
deriving DecidableEq, Repr

/-- `recipe.trainer.strategy.ddp`. -/
structure DDPConfig where
  average_in_collective : Bool
  rest : Nat
deriving DecidableEq, Repr

/-- `recipe.trainer.strategy`. -/
structure StrategyConfig where
  ddp : DDPConfig
  use_te_rng_tracker : Bool
  rest : Nat
deriving DecidableEq, Repr

/-- `recipe.trainer`. -/
structure TrainerConfig where
  plugins : Plugins
  strategy : StrategyConfig
  rest : Nat
deriving DecidableEq, Repr

/-- `recipe.model.config`. -/
structure ModelInnerConfig where
  enable_cuda_graph : Bool
  rest : Nat
deriving DecidableEq, Repr

/-- `recipe.model`. -/
structure ModelConfig where
  config : ModelInnerConfig
  rest : Nat
deriving DecidableEq, Repr

/-- `recipe.data`. -/
structure DataConfig where
  num_train_samples : Int
  tokenizer : Tokenizer
  rest : Nat
deriving DecidableEq, Repr

/-- The full recipe object graph (the paths touched by the script). -/
structure Recipe where
  data : DataConfig
  trainer : TrainerConfig
  model : ModelConfig
  rest : Nat
deriving DecidableEq, Repr

/-- The command-line argument bundle: only the attributes that
`override_recipe_configs` and the launch driver read. -/
structure Args where
  tensorboard : Bool
  wandb : Bool
  wandb_prj_name : String
  wandb_job_name : String
  gpus_per_node : Int
  max_steps : Int
  compute_dtype : String
  enable_nsys : Bool
deriving DecidableEq, Repr

/-- Python `str.lower()` restricted to the ASCII range, which is all the
script compares (`"fp8"` against CLI dtype strings). -/
def pyLower (s : String) : String :=
  String.mk (s.data.map Char.toLower)

/-- The type of the external collaborator `set_primary_perf_configs`, exactly
in the argument order the script passes: recipe, tensorboard, wandb,
wandb_prj_name, wandb_job_name, num_nodes, gpus_per_node, mbs, gbs,
max_steps, tp, pp, cp, vp, ep, etp. -/
def SetPrimaryPerfConfigs : Type :=
  Recipe → Bool → Bool → String → String → Int → Int → Int → Int → Int →
    Int → Int → Int → Int → Int → Option Int → Recipe

/-- The tokenizer name hardcoded in the script. -/
def mixtral_tokenizer_name : String := "mistralai/Mixtral-8x22B-v0.1"

/-- The recipe state right after the two collaborator calls at the top of
`override_recipe_configs`:
`set_primary_perf_configs(pretrain_recipe(performance_mode=True), ...)`. -/
def base_recipe (pretrain_recipe : Bool → Recipe)
    (set_primary_perf_configs : SetPrimaryPerfConfigs) (args : Args)
    (num_nodes mbs gbs tp_size pp_size cp_size vp_size ep_size : Int)
    (etp_size : Option Int) : Recipe :=
  set_primary_perf_configs (pretrain_recipe true)
    args.tensorboard args.wandb args.wandb_prj_name args.wandb_job_name
    num_nodes args.gpus_per_node mbs gbs args.max_steps
    tp_size pp_size cp_size vp_size ep_size etp_size

/-- `override_recipe_configs` from `pretrain_mixtral_8x22b.py`, with the
external collaborators passed in as parameters.  The Python function mutates
the recipe in place and returns it; here each assignment is a functional
record update. -/
def override_recipe_configs (pretrain_recipe : Bool → Recipe)
    (set_primary_perf_configs : SetPrimaryPerfConfigs)
    (hf_tokenizer : String → Tokenizer) (bf16_with_fp8_mixed : Unit → Plugins)
    (args : Args)
    (num_nodes mbs gbs tp_size pp_size cp_size vp_size ep_size : Int)
    (etp_size : Option Int) (enable_cuda_graphs : Bool) : Recipe :=
  let recipe := base_recipe pretrain_recipe set_primary_perf_configs args
    num_nodes mbs gbs tp_size pp_size cp_size vp_size ep_size etp_size
  -- data module configs
  let recipe := { recipe with data :=
    { recipe.data with num_train_samples := args.max_steps * gbs * mbs } }
  let recipe := { recipe with data :=
    { recipe.data with tokenizer := hf_tokenizer mixtral_tokenizer_name } }
  -- compute dtype configs
  let recipe :=
    if pyLower args.compute_dtype = "fp8" then
      let recipe := { recipe with trainer :=
        { recipe.trainer with plugins := bf16_with_fp8_mixed () } }
      { recipe with trainer :=
        { recipe.trainer with plugins :=
          { recipe.trainer.plugins with grad_reduce_in_fp32 := false } } }
    else recipe
  -- etp_size is not None and etp_size != tp_size
  let recipe :=
    match etp_size with
    | some e =>
      if e ≠ tp_size then
        { recipe with trainer := { recipe.trainer with strategy :=
          { recipe.trainer.strategy with ddp :=
            { recipe.trainer.strategy.ddp with average_in_collective := false } } } }
      else recipe
    | none => recipe
  let recipe := { recipe with model := { recipe.model with config :=
    { recipe.model.config with enable_cuda_graph := enable_cuda_graphs } } }
  let recipe := { recipe with trainer := { recipe.trainer with strategy :=
    { recipe.trainer.strategy with use_te_rng_tracker := enable_cuda_graphs } } }
  recipe

/-! ## Launch driver: experiment naming and plugin list -/

/-- Python `str(x)` on an `Optional[int]`: `None` prints as `"None"`. -/
def pyOptStr : Option Int → String
  | none => "None"
  | some v => toString v

/-- `splitext(basename(__file__))[0]` for this script. -/
def script_stem : String := "pretrain_mixtral_8x22b"

/-- The `exp_config` f-string built by the launch driver. -/
def exp_config (num_nodes tp_size pp_size cp_size vp_size ep_size : Int)
    (etp_size : Option Int) (mbs gbs : Int) : String :=
  toString num_nodes ++ "nodes_tp" ++ toString tp_size ++ "_pp" ++
    toString pp_size ++ "_cp" ++ toString cp_size ++ "_vp" ++
    toString vp_size ++ "_ep" ++ toString ep_size ++ "_etp" ++
    pyOptStr etp_size ++ "_" ++ toString mbs ++ "mbs_" ++
    toString gbs ++ "gbs"

/-- The `exp_name` f-string: script stem, compute dtype, then the
experiment-configuration string. -/
def exp_name (compute_dtype : String) (cfg : String) : String :=
  script_stem ++ "_" ++ compute_dtype ++ "_" ++ cfg

/-- The two plugin constructors the launch driver instantiates. -/
inductive RunPlugin where
  | PerfEnvPlugin (enable_vboost : Bool) (nccl_pp_comm_chunksize : Option Int)
  | NsysPlugin (start_step end_step : Int)
deriving DecidableEq, Repr

/-- The plugin list assembled by the launch driver: a `PerfEnvPlugin`, then
an `NsysPlugin` appended when `args.enable_nsys`. -/
def plugins (pp_size : Int) (enable_nsys : Bool) : List RunPlugin :=
  let ps := [RunPlugin.PerfEnvPlugin true
    (if pp_size > 1 then some 2097152 else none)]
  if enable_nsys then ps ++ [RunPlugin.NsysPlugin 5 6] else ps

/-! ## Data-module factory (`nemo/collections/vlm/neva/data/api.py`) -/

/-- The two data-module variants returned by the factory.

Modelled from the spec: the constructors `MockDataModule` and
`NevaLazyDataModule` live outside this fragment (`...vlm/neva/data/mock.py`
and `...lazy.py`); per the spec each is a "fully-configured data-module
instance with hardcoded constants", so each variant records exactly the
keyword arguments the factory passes. -/
inductive LightningDataModule where
  | MockDataModule (seq_length global_batch_size micro_batch_size : Int)
  | NevaLazyDataModule (seq_length global_batch_size micro_batch_size : Int)
deriving DecidableEq, Repr

def LightningDataModule.seq_length : LightningDataModule → Int
  | .MockDataModule s _ _ => s
  | .NevaLazyDataModule s _ _ => s

def LightningDataModule.global_batch_size : LightningDataModule → Int
  | .MockDataModule _ g _ => g
  | .NevaLazyDataModule _ g _ => g

def LightningDataModule.micro_batch_size : LightningDataModule → Int
  | .MockDataModule _ _ m => m
  | .NevaLazyDataModule _ _ m => m

def LightningDataModule.isMockVariant : LightningDataModule → Bool
  | .MockDataModule _ _ _ => true
  | .NevaLazyDataModule _ _ _ => false

/-- `mock()` from `api.py`.

Modelled from the spec: the spec states the factory functions have "no side
effects beyond object construction", so the call is embedded in
state-passing style over an arbitrary outside world `σ`, which the
constructor call leaves unchanged. -/
def mock {σ : Type} (world : σ) : LightningDataModule × σ :=
  (LightningDataModule.MockDataModule 4096 16 2, world)

/-- `lazy()` from `api.py`, embedded like `mock`. -/
def lazy {σ : Type} (world : σ) : LightningDataModule × σ :=
  (LightningDataModule.NevaLazyDataModule 4096 16 2, world)

/-! ## Concrete sample instantiations of the external collaborators,
used to evaluate the theorems on closed inputs -/

/-- A sample argument bundle with the given compute dtype. -/
def mkArgs (dtype : String) : Args :=
  { tensorboard := false, wandb := false, wandb_prj_name := "p",
    wandb_job_name := "j", gpus_per_node := 8, max_steps := 100,
    compute_dtype := dtype, enable_nsys := false }

def sTok : Tokenizer := { name := "t" }

def sDDP : DDPConfig := { average_in_collective := true, rest := 0 }

def sStrategy : StrategyConfig :=
  { ddp := sDDP, use_te_rng_tracker := false, rest := 0 }

def sPlug : Plugins := { grad_reduce_in_fp32 := true, rest := 0 }

def sTrainer : TrainerConfig :=
  { plugins := sPlug, strategy := sStrategy, rest := 0 }

def sModel : ModelConfig :=
  { config := { enable_cuda_graph := false, rest := 0 }, rest := 0 }

def sData : DataConfig :=
  { num_train_samples := 0, tokenizer := sTok, rest := 0 }

def sRecipe : Recipe :=
  { data := sData, trainer := sTrainer, model := sModel, rest := 0 }

/-- Sample `pretrain_recipe` collaborator. -/
def sPretrain : Bool → Recipe := fun _ => sRecipe

/-- Sample `set_primary_perf_configs` collaborator (identity on the recipe). -/
def sSetPrimary : SetPrimaryPerfConfigs :=
  fun r _ _ _ _ _ _ _ _ _ _ _ _ _ _ _ => r

/-- Sample `hf_tokenizer` collaborator. -/
def sHf : String → Tokenizer := fun s => { name := s }

/-- Sample `bf16_with_fp8_mixed` collaborator; its `rest` component differs
from `sPlug`'s so that replacing the plugin object is observable. -/
def sBf16 : Unit → Plugins := fun _ => { grad_reduce_in_fp32 := true, rest := 7 }

/-! ## Theorems for the claims -/

/-- C1: for every argument bundle and all integer parameters, after
`override_recipe_configs` returns, the recipe satisfies
`recipe.data.num_train_samples == args.max_steps * gbs * mbs`, whatever the
external collaborators produced. -/
theorem override_sets_num_train_samples (pr : Bool → Recipe)
    (sp : SetPrimaryPerfConfigs) (hf : String → Tokenizer)
    (bf : Unit → Plugins) (args : Args)
    (num_nodes mbs gbs tp_size pp_size cp_size vp_size ep_size : Int)
    (etp_size : Option Int) (cg : Bool) :
    (override_recipe_configs pr sp hf bf args num_nodes mbs gbs tp_size
      pp_size cp_size vp_size ep_size etp_size cg).data.num_train_samples =
      args.max_steps * gbs * mbs := by
  rcases etp_size with _ | e <;>
    unfold override_recipe_configs <;> dsimp only <;>
    split <;> (try split) <;> rfl

/-- C2 (amended): when `args.compute_dtype` is exactly `"fp8"` the trainer
plugins are replaced by the bf16-with-fp8 plugin with
`grad_reduce_in_fp32 := false`; and for every dtype whose ASCII lowercasing
is not `"fp8"`, the plugin path keeps exactly the value the collaborators
gave it.  (The unamended claim promised the frame condition for every value
other than the exact string `"fp8"`, which fails at `"FP8"`.) -/
theorem fp8_plugin_swap_amended (pr : Bool → Recipe)
    (sp : SetPrimaryPerfConfigs) (hf : String → Tokenizer)
    (bf : Unit → Plugins) (args : Args)
    (num_nodes mbs gbs tp_size pp_size cp_size vp_size ep_size : Int)
    (etp_size : Option Int) (cg : Bool) :
    (args.compute_dtype = "fp8" →
      (override_recipe_configs pr sp hf bf args num_nodes mbs gbs tp_size
        pp_size cp_size vp_size ep_size etp_size cg).trainer.plugins =
        { bf () with grad_reduce_in_fp32 := false }) ∧
    (pyLower args.compute_dtype ≠ "fp8" →
      (override_recipe_configs pr sp hf bf args num_nodes mbs gbs tp_size
        pp_size cp_size vp_size ep_size etp_size cg).trainer.plugins =
        (base_recipe pr sp args num_nodes mbs gbs tp_size pp_size cp_size
          vp_size ep_size etp_size).trainer.plugins) := by
  constructor <;> intro h
  · have hl : pyLower args.compute_dtype = "fp8" := by rw [h]; rfl
    rcases etp_size with _ | e <;>
      unfold override_recipe_configs <;> dsimp only <;>
      rw [if_pos hl] <;> (try split) <;> rfl
  · rcases etp_size with _ | e <;>
      unfold override_recipe_configs <;> dsimp only <;>
      rw [if_neg h] <;> (try split) <;> rfl

/-- C2 (counterexample): at `compute_dtype = "FP8"`, a value other than the
exact string `"fp8"`, the plugin path is nevertheless replaced, because the
code lowercases before comparing. -/
theorem fp8_exact_match_counterexample :
    (mkArgs "FP8").compute_dtype ≠ "fp8" ∧
    (override_recipe_configs sPretrain sSetPrimary sHf sBf16 (mkArgs "FP8")
      4 1 128 2 4 1 7 8 none false).trainer.plugins ≠
      (base_recipe sPretrain sSetPrimary (mkArgs "FP8")
        4 1 128 2 4 1 7 8 none).trainer.plugins := by
  constructor <;> decide

/-- C2 (witness): the amended theorem applied at `"fp8"` (plugins swapped)
and at `"bf16"` (plugins untouched). -/
theorem fp8_plugin_swap_amended_witness :
    (override_recipe_configs sPretrain sSetPrimary sHf sBf16 (mkArgs "fp8")
      4 1 128 2 4 1 7 8 none false).trainer.plugins =
      { sBf16 () with grad_reduce_in_fp32 := false } ∧
    (override_recipe_configs sPretrain sSetPrimary sHf sBf16 (mkArgs "bf16")
      4 1 128 2 4 1 7 8 none false).trainer.plugins =
      (base_recipe sPretrain sSetPrimary (mkArgs "bf16")
        4 1 128 2 4 1 7 8 none).trainer.plugins :=
  ⟨(fp8_plugin_swap_amended sPretrain sSetPrimary sHf sBf16 (mkArgs "fp8")
      4 1 128 2 4 1 7 8 none false).1 rfl,
   (fp8_plugin_swap_amended sPretrain sSetPrimary sHf sBf16 (mkArgs "bf16")
      4 1 128 2 4 1 7 8 none false).2 (by decide)⟩

/-- C3: when `etp_size` is present and differs from `tp_size` the returned
recipe has `trainer.strategy.ddp.average_in_collective = false`; otherwise
that field keeps exactly the value the collaborators gave it. -/
theorem etp_average_in_collective (pr : Bool → Recipe)
    (sp : SetPrimaryPerfConfigs) (hf : String → Tokenizer)
    (bf : Unit → Plugins) (args : Args)
    (num_nodes mbs gbs tp_size pp_size cp_size vp_size ep_size : Int)
    (etp_size : Option Int) (cg : Bool) :
    ((∃ e, etp_size = some e ∧ e ≠ tp_size) →
      (override_recipe_configs pr sp hf bf args num_nodes mbs gbs tp_size
        pp_size cp_size vp_size ep_size etp_size
        cg).trainer.strategy.ddp.average_in_collective = false) ∧
    ((etp_size = none ∨ etp_size = some tp_size) →
      (override_recipe_configs pr sp hf bf args num_nodes mbs gbs tp_size
        pp_size cp_size vp_size ep_size etp_size
        cg).trainer.strategy.ddp.average_in_collective =
        (base_recipe pr sp args num_nodes mbs gbs tp_size pp_size cp_size
          vp_size ep_size
          etp_size).trainer.strategy.ddp.average_in_collective) := by
  constructor
  · rintro ⟨e, rfl, hne⟩
    unfold override_recipe_configs
    dsimp only
    rw [if_pos hne]
  · rintro (rfl | rfl)
    · unfold override_recipe_configs
      dsimp only
      split <;> rfl
    · unfold override_recipe_configs
      dsimp only
      rw [if_neg (not_not_intro rfl)]
      split <;> rfl

/-- C3 (witness): the theorem applied with `etp_size = some 2, tp_size = 1`
(field forced to `false`) and with `etp_size = none` (field untouched). -/
theorem etp_average_in_collective_witness :
    ((∃ e, (some (2 : Int)) = some e ∧ e ≠ (1 : Int)) ∧
      (override_recipe_configs sPretrain sSetPrimary sHf sBf16 (mkArgs "bf16")
        4 1 128 1 4 1 7 8 (some 2)
        false).trainer.strategy.ddp.average_in_collective = false) ∧
    (override_recipe_configs sPretrain sSetPrimary sHf sBf16 (mkArgs "bf16")
      4 1 128 1 4 1 7 8 none
      false).trainer.strategy.ddp.average_in_collective =
      (base_recipe sPretrain sSetPrimary (mkArgs "bf16")
        4 1 128 1 4 1 7 8 none).trainer.strategy.ddp.average_in_collective :=
  ⟨⟨⟨2, rfl, by decide⟩,
    (etp_average_in_collective sPretrain sSetPrimary sHf sBf16 (mkArgs "bf16")
      4 1 128 1 4 1 7 8 (some 2) false).1 ⟨2, rfl, by decide⟩⟩,
   (etp_average_in_collective sPretrain sSetPrimary sHf sBf16 (mkArgs "bf16")
      4 1 128 1 4 1 7 8 none false).2 (Or.inl rfl)⟩

/-- C4: for every boolean `enable_cuda_graphs` and every input bundle, after
`override_recipe_configs` both `recipe.model.config.enable_cuda_graph` and
`recipe.trainer.strategy.use_te_rng_tracker` equal `enable_cuda_graphs`. -/
theorem cuda_graph_flags_propagated (pr : Bool → Recipe)
    (sp : SetPrimaryPerfConfigs) (hf : String → Tokenizer)
    (bf : Unit → Plugins) (args : Args)
    (num_nodes mbs gbs tp_size pp_size cp_size vp_size ep_size : Int)
    (etp_size : Option Int) (cg : Bool) :
    (override_recipe_configs pr sp hf bf args num_nodes mbs gbs tp_size
      pp_size cp_size vp_size ep_size etp_size
      cg).model.config.enable_cuda_graph = cg ∧
    (override_recipe_configs pr sp hf bf args num_nodes mbs gbs tp_size
      pp_size cp_size vp_size ep_size etp_size
      cg).trainer.strategy.use_te_rng_tracker = cg := by
  constructor
  · rcases etp_size with _ | e <;>
      unfold override_recipe_configs <;> dsimp only <;>
      split <;> (try split) <;> rfl
  · rcases etp_size with _ | e <;>
      unfold override_recipe_configs <;> dsimp only <;> rfl

/-- C5: `mock()` and `lazy()` each return a data module with
`seq_length = 4096`, `global_batch_size = 16`, `micro_batch_size = 2`;
`mock()` builds the mock-data variant and `lazy()` the lazy-loaded
variant. -/
theorem data_module_factory_fields {σ : Type} (world : σ) :
    (mock world).1.seq_length = 4096 ∧
    (mock world).1.global_batch_size = 16 ∧
    (mock world).1.micro_batch_size = 2 ∧
    (mock world).1.isMockVariant = true ∧
    (lazy world).1.seq_length = 4096 ∧
    (lazy world).1.global_batch_size = 16 ∧
    (lazy world).1.micro_batch_size = 2 ∧
    (lazy world).1.isMockVariant = false :=
  ⟨rfl, rfl, rfl, rfl, rfl, rfl, rfl, rfl⟩

/-- C6: for every input bundle, after `override_recipe_configs` the
recipe's `data.tokenizer` is the pretrained-tokenizer lookup applied to the
name `"mistralai/Mixtral-8x22B-v0.1"`, independent of all arguments. -/
theorem tokenizer_always_mixtral (pr : Bool → Recipe)
    (sp : SetPrimaryPerfConfigs) (hf : String → Tokenizer)
    (bf : Unit → Plugins) (args : Args)
    (num_nodes mbs gbs tp_size pp_size cp_size vp_size ep_size : Int)
    (etp_size : Option Int) (cg : Bool) :
    (override_recipe_configs pr sp hf bf args num_nodes mbs gbs tp_size
      pp_size cp_size vp_size ep_size etp_size cg).data.tokenizer =
      hf mixtral_tokenizer_name ∧
    mixtral_tokenizer_name = "mistralai/Mixtral-8x22B-v0.1" := by
  constructor
  · rcases etp_size with _ | e <;>
      unfold override_recipe_configs <;> dsimp only <;>
      split <;> (try split) <;> rfl
  · rfl

/-- C7: the experiment-configuration string equals the concatenation
`{nodes}nodes_tp{tp}_pp{pp}_cp{cp}_vp{vp}_ep{ep}_etp{etp}_{mbs}mbs_{gbs}gbs`
of the parallelism values, and it is embedded (as a suffix) in the
experiment name used for submission. -/
theorem exp_config_naming (num_nodes tp_size pp_size cp_size vp_size
    ep_size : Int) (etp_size : Option Int) (mbs gbs : Int) (dtype : String) :
    exp_config num_nodes tp_size pp_size cp_size vp_size ep_size etp_size
      mbs gbs =
      toString num_nodes ++ "nodes_tp" ++ toString tp_size ++ "_pp" ++
        toString pp_size ++ "_cp" ++ toString cp_size ++ "_vp" ++
        toString vp_size ++ "_ep" ++ toString ep_size ++ "_etp" ++
        pyOptStr etp_size ++ "_" ++ toString mbs ++ "mbs_" ++
        toString gbs ++ "gbs" ∧
    (∃ p, exp_name dtype (exp_config num_nodes tp_size pp_size cp_size
      vp_size ep_size etp_size mbs gbs) =
      p ++ exp_config num_nodes tp_size pp_size cp_size vp_size ep_size
        etp_size mbs gbs) :=
  ⟨rfl, ⟨script_stem ++ "_" ++ dtype ++ "_", rfl⟩⟩

/-- C8: the driver's plugin list always has the performance-environment
plugin first; the Nsys profiling plugin is present exactly when requested,
after it, so the list has length 2 when profiling and length 1 otherwise,
and the profiler is never first. -/
theorem plugins_list_shape (pp_size : Int) (enable_nsys : Bool) :
    (∃ c, (plugins pp_size enable_nsys).head? =
      some (RunPlugin.PerfEnvPlugin true c)) ∧
    (plugins pp_size enable_nsys).length = (if enable_nsys then 2 else 1) ∧
    ((∃ s e, RunPlugin.NsysPlugin s e ∈ plugins pp_size enable_nsys) ↔
      enable_nsys = true) := by
  cases enable_nsys <;> simp [plugins]

/-- C9: `mock()` and `lazy()` are deterministic and side-effect free: each
leaves the outside world unchanged, and the constructed module does not
depend on that world. -/
theorem data_module_factory_pure {σ : Type} (s t : σ) :
    (mock s).2 = s ∧ (lazy s).2 = s ∧
    (mock s).1 = (mock t).1 ∧ (lazy s).1 = (lazy t).1 :=
  ⟨rfl, rfl, rfl, rfl⟩

/-- C10: the precision-mode test is case-insensitive: for any
`compute_dtype` whose lowercasing is `"fp8"`, the mixed-precision plugin
swap and the `grad_reduce_in_fp32 := false` override are applied exactly as
for `"fp8"`. -/
theorem fp8_check_case_insensitive (pr : Bool → Recipe)
    (sp : SetPrimaryPerfConfigs) (hf : String → Tokenizer)
    (bf : Unit → Plugins) (args : Args)
    (num_nodes mbs gbs tp_size pp_size cp_size vp_size ep_size : Int)
    (etp_size : Option Int) (cg : Bool)
    (h : pyLower args.compute_dtype = "fp8") :
    (override_recipe_configs pr sp hf bf args num_nodes mbs gbs tp_size
      pp_size cp_size vp_size ep_size etp_size cg).trainer.plugins =
      { bf () with grad_reduce_in_fp32 := false } := by
  rcases etp_size with _ | e <;>
    unfold override_recipe_configs <;> dsimp only <;>
    rw [if_pos h] <;> (try split) <;> rfl

/-- C10 (witness): the theorem applied at the upper-case dtype `"FP8"`. -/
theorem fp8_check_case_insensitive_witness :
    pyLower (mkArgs "FP8").compute_dtype = "fp8" ∧
    (override_recipe_configs sPretrain sSetPrimary sHf sBf16 (mkArgs "FP8")
      4 1 128 2 4 1 7 8 none false).trainer.plugins =
      { sBf16 () with grad_reduce_in_fp32 := false } :=
  ⟨by decide, fp8_check_case_insensitive sPretrain sSetPrimary sHf sBf16
    (mkArgs "FP8") 4 1 128 2 4 1 7 8 none false (by decide)⟩
